import Mathlib

/-!
Shallow embedding, in Lean 4, of the frame-request service of this repository:
the request lifecycle handler (main.py, request_frames), the SQLite-backed
request store (utils/db_managment.py, SQLHandler), the data-point resolution
and rule-correction code (utils/utility.py), and the XML serializer
(utils/export_to_fbw.py, convert_to_xml).

Python strings are Lean `String`; Python ints are `Int`/`Nat`; Python floats
and JSON numbers are `ℚ` (the program only ever compares them and multiplies
by rational constants, never relies on rounding); Python `None`-able values
are `Option`; a function that can raise returns `Except`.  String helpers
(startswith, split, upper/lower, substring test) are re-implemented over
`List Char` so that concrete runs reduce inside the kernel; they follow
Python semantics on the ASCII data this program handles.
-/

/-- Python exception kinds raised by the embedded code paths: the unguarded
builtin `next()` raises `StopIteration` when its generator is exhausted. -/
inductive PyErr where
  | stopIteration
deriving Repr, DecidableEq

/-- Lowercase an ASCII character, as Python `str.lower` does on ASCII input. -/
def lowerChar (c : Char) : Char :=
  if 65 ≤ c.toNat ∧ c.toNat ≤ 90 then Char.ofNat (c.toNat + 32) else c

/-- Uppercase an ASCII character, as Python `str.upper` does on ASCII input. -/
def upperChar (c : Char) : Char :=
  if 97 ≤ c.toNat ∧ c.toNat ≤ 122 then Char.ofNat (c.toNat - 32) else c

/-- Python `s.lower()` restricted to ASCII data. -/
def lowerStr (s : String) : String := String.mk (s.data.map lowerChar)

/-- Python `s.upper()` restricted to ASCII data. -/
def upperStr (s : String) : String := String.mk (s.data.map upperChar)

/-- Helper for the Python substring test: does `pat` occur in the list? -/
def hasInfix (pat : List Char) : List Char → Bool
  | [] => pat.isEmpty
  | c :: rest => pat.isPrefixOf (c :: rest) || hasInfix pat rest

/-- Python `pat in s` on strings (substring containment). -/
def containsSub (s pat : String) : Bool := hasInfix pat.data s.data

/-- Python `s.startswith(pre)`. -/
def startsWith (s pre : String) : Bool := pre.data.isPrefixOf s.data

/-- Helper for Python `str.split(sep)` with a non-empty separator. -/
def splitOnAux (sep : List Char) : List Char → List Char → List (List Char)
  | [], acc => [acc.reverse]
  | c :: rest, acc =>
    if sep.isPrefixOf (c :: rest) then
      acc.reverse :: splitOnAux sep (List.drop (sep.length - 1) rest) []
    else
      splitOnAux sep rest (acc ++ [c])
termination_by l _ => l.length
decreasing_by
  · simp only [List.length_drop, List.length_cons]
    omega
  · simp only [List.length_cons]
    omega

/-- Python `s.split(sep)` for a non-empty separator. -/
def pySplit (s sep : String) : List String :=
  (splitOnAux sep.data s.data []).map String.mk

/-- Python dict lookup `d.get(k)` for a dict modelled as an association list. -/
def dictGet {α : Type} (d : List (String × α)) (k : String) : Option α :=
  (d.find? (fun p => p.1 == k)).map (fun p => p.2)

/-- The models.DPOINT dataclass (models/models.py): one catalog data point
plus the per-request time/depth overrides (both `None` until set). -/
structure DPOINT where
  name : String
  datpid : Int
  length : Int
  is_mwd : Bool
  ltb_addr : Int
  description : String
  time : Option ℚ
  depth : Option ℚ
deriving Repr, DecidableEq

/-- The models.TOOL dataclass (models/models.py).  `version` and `size` are
`str` fields that the resolution code can leave as Python `None`, hence
`Option String` here; likewise the DDR spacing/block fields. -/
structure TOOL where
  tool_id : String
  display_name : String
  ltb_addr : Int
  is_mwd : Bool
  dpoint_suffix : String
  version : Option String
  size : Option String
  tr_spacing : Option ℚ
  rt_blocksize : Option Int
deriving Repr, DecidableEq

/-- One row of the catalog DPoint table joined with Tool, in the column order
of the SELECT in SQLHandler.select_dpoints_from_db_with_tools
(utils/db_managment.py): DPOINT_NAME, DPOINT_DATPID, NO_OF_BITS, IsMWDTool,
TOOL_LTB_ADDR, DPOINT_SHORT_DESCRIPTION. -/
structure DPRow where
  dpoint_name : String
  datpid : Int
  no_of_bits : Int
  tool_is_mwd : Bool
  ltb_addr : Int
  short_description : String
deriving Repr, DecidableEq

/-- models.DPOINT(*row): build a DPOINT from a catalog query row. -/
def rowToDPOINT (r : DPRow) : DPOINT :=
  ⟨r.dpoint_name, r.datpid, r.no_of_bits, r.tool_is_mwd, r.ltb_addr,
    r.short_description, none, none⟩

/-- Byte-wise (ASCII) string order used to model SQL `ORDER BY name ASC`. -/
def charListLe : List Char → List Char → Bool
  | [], _ => true
  | _ :: _, [] => false
  | a :: as, b :: bs =>
    if a.toNat < b.toNat then true
    else if a.toNat = b.toNat then charListLe as bs
    else false

/-- Insertion step of the sort modelling `ORDER BY DPoint.DPOINT_NAME ASC`. -/
def insertByName (r : DPRow) : List DPRow → List DPRow
  | [] => [r]
  | x :: xs =>
    if charListLe r.dpoint_name.data x.dpoint_name.data then r :: x :: xs
    else x :: insertByName r xs

/-- Sort catalog rows by data-point name ascending, modelling the query's
`ORDER BY DPoint.DPOINT_NAME ASC` clause. -/
def sortByName (rows : List DPRow) : List DPRow := rows.foldr insertByName []

/-- SQLHandler.select_dpoints_from_db_with_tools (utils/db_managment.py):
rows whose TOOL_LTB_ADDR is among the given tool addresses and whose
DPOINT_NAME is among the requested names, ordered by name ascending.  The
physical SQLite database is modelled as the list `catalog` of its rows. -/
def select_dpoints_from_db_with_tools (catalog : List DPRow)
    (dpoint_names : List String) (tools : List Int) : List DPRow :=
  sortByName (catalog.filter
    (fun r => tools.contains r.ltb_addr && dpoint_names.contains r.dpoint_name))

/-- Python `v in xs` where `v` is a possibly-`None` string (`None in xs` is
false for a list of strings). -/
def pyIn (v : Option String) (xs : List String) : Bool :=
  match v with
  | some s => xs.contains s
  | none => false

/-- utility.get_dpoint_list, RTA/CLNK rule: if an RTA or CLNK tool is present
and "TF_b" was requested, replace "TF_b" by "TFHI_b" (pop + append). -/
def ruleTfb (tools : List TOOL) (l : List String) : List String :=
  if ("RTA" ∈ tools.map (fun t => t.display_name) ∨
      "CLNK" ∈ tools.map (fun t => t.display_name)) ∧ "TF_b" ∈ l then
    (l.erase "TF_b") ++ ["TFHI_b"]
  else l

/-- utility.get_dpoint_list, DDR r1 rule: drop "DDR_RT_1_r1" when a
higher-numbered r1 sibling is present. -/
def ruleDdrR1 (l : List String) : List String :=
  if ("DDR_RT_2_r1" ∈ l ∨ "DDR_RT_3_r1" ∈ l ∨ "DDR_RT_4_r1" ∈ l) ∧
      "DDR_RT_1_r1" ∈ l then
    l.erase "DDR_RT_1_r1"
  else l

/-- utility.get_dpoint_list, DDR r2 rule. -/
def ruleDdrR2 (l : List String) : List String :=
  if ("DDR_RT_2_r2" ∈ l ∨ "DDR_RT_3_r2" ∈ l ∨ "DDR_RT_4_r2" ∈ l) ∧
      "DDR_RT_1_r2" ∈ l then
    l.erase "DDR_RT_1_r2"
  else l

/-- utility.get_dpoint_list, DDR r3 rule. -/
def ruleDdrR3 (l : List String) : List String :=
  if ("DDR_RT_2_r3" ∈ l ∨ "DDR_RT_3_r3" ∈ l ∨ "DDR_RT_4_r3" ∈ l) ∧
      "DDR_RT_1_r3" ∈ l then
    l.erase "DDR_RT_1_r3"
  else l

/-- utility.get_dpoint_list: drop "C_PKPO4_s" when "C_PKPO3_s" is present. -/
def rulePkpo (l : List String) : List String :=
  if "C_PKPO4_s" ∈ l ∧ "C_PKPO3_s" ∈ l then l.erase "C_PKPO4_s" else l

/-- utility.get_dpoint_list: drop "O_grcnt_c" when GRCNTX_c or GRCNT_c is
present. -/
def ruleGrcnt (l : List String) : List String :=
  if ("GRCNTX_c" ∈ l ∨ "GRCNT_c" ∈ l) ∧ "O_grcnt_c" ∈ l then
    l.erase "O_grcnt_c"
  else l

/-- utility.get_dpoint_list: drop "O_RHOB_v" when RHOB_v or ROBB_v is
present. -/
def ruleRhob (l : List String) : List String :=
  if ("O_RHOB_v" ∈ l ∧ "RHOB_v" ∈ l) ∨ ("O_RHOB_v" ∈ l ∧ "ROBB_v" ∈ l) then
    l.erase "O_RHOB_v"
  else l

/-- utility.get_dpoint_list: drop "O_DRHO_v" when DRHO_v or DRHB_v is
present. -/
def ruleDrho (l : List String) : List String :=
  if ("O_DRHO_v" ∈ l ∧ "DRHO_v" ∈ l) ∨ ("O_DRHO_v" ∈ l ∧ "DRHB_v" ∈ l) then
    l.erase "O_DRHO_v"
  else l

/-- utility.get_dpoint_list, CS3PK_H_mp rule.  The version of the MP3 tool is
read with an unguarded `next(tool.version for tool in tools if
tool.display_name == "MP3")`, which raises StopIteration when no MP3 tool is
present; when the version is in the allow-list, "SCLP_mp" is appended if
absent. -/
def ruleCs3pk (tools : List TOOL) (l : List String) : Except PyErr (List String) :=
  if "CS3PK_H_mp" ∈ l then
    match tools.find? (fun t => t.display_name == "MP3") with
    | none => .error .stopIteration
    | some t =>
      if pyIn t.version ["7.7", "8.4", "8.5", "8.7"] then
        .ok (if "SCLP_mp" ∈ l then l else l ++ ["SCLP_mp"])
      else .ok l
  else .ok l

/-- utility.get_dpoint_list, CSSTAT_mp rule.  Both the version and size of
the MP3 tool are read with unguarded `next(...)` over the same generator
predicate (the size generator is only evaluated when the version test
passes); when both are in their allow-lists, "AET_mp" is appended if
absent. -/
def ruleCsstat (tools : List TOOL) (l : List String) : Except PyErr (List String) :=
  if "CSSTAT_mp" ∈ l then
    match tools.find? (fun t => t.display_name == "MP3") with
    | none => .error .stopIteration
    | some t =>
      if pyIn t.version ["8.5", "8.7"] then
        if pyIn t.size ["8.25", "6.75", "9.0"] then
          .ok (if "AET_mp" ∈ l then l else l ++ ["AET_mp"])
        else .ok l
      else .ok l
  else .ok l

/-- utility.get_dpoint_list: replace "O_RBIT_gvr" by "RESBIT_gvr". -/
def ruleRbit (l : List String) : List String :=
  if "O_RBIT_gvr" ∈ l then (l.erase "O_RBIT_gvr") ++ ["RESBIT_gvr"] else l

/-- The correction block at the head of utility.get_dpoint_list (utils/
utility.py lines 50-115), applied in source order.  In Python each rule
mutates the caller-supplied `dpoint_list` in place (pop/append); the value
returned here is therefore also the content the caller's list holds after
the call. -/
def applyCorrections (dpoint_list : List String) (tools : List TOOL) :
    Except PyErr (List String) :=
  match ruleCs3pk tools (ruleDrho (ruleRhob (ruleGrcnt (rulePkpo
      (ruleDdrR3 (ruleDdrR2 (ruleDdrR1 (ruleTfb tools dpoint_list)))))))) with
  | .error e => .error e
  | .ok l9 =>
    match ruleCsstat tools l9 with
    | .error e => .error e
    | .ok l10 => .ok (ruleRbit l10)

/-- The depth-override assignment inside utility.get_dpoint_list: applied
when the name is a key of the depth map and the raw value is truthy and
converts to float (an unconvertible or falsy value is skipped; both are
modelled by `none`). -/
def applyDepthUpdate (d : DPOINT) (du : List (String × Option ℚ)) : DPOINT :=
  match dictGet du d.name with
  | some (some q) => { d with depth := some q }
  | _ => d

/-- The per-DPOINT body of the update loop in utility.get_dpoint_list: a
failed float conversion of the time value raises inside the try block and
`continue`s, skipping the depth update of that DPOINT as well. -/
def applyTimeDepth (tu du : List (String × Option ℚ)) (d : DPOINT) : DPOINT :=
  match dictGet tu d.name with
  | some (some q) => applyDepthUpdate { d with time := some q } du
  | some none => d
  | none => applyDepthUpdate d du

/-- The `if time_update or depth_update:` loop of utility.get_dpoint_list. -/
def applyUpdates (dpoints : List DPOINT) (tu du : List (String × Option ℚ)) :
    List DPOINT :=
  if tu.isEmpty && du.isEmpty then dpoints
  else dpoints.map (applyTimeDepth tu du)

/-- utility.get_dpoint_list (utils/utility.py lines 19-142).  The first
component of the result is the list of resolved DPOINT records; the second
is the final content of the caller-supplied `dpoint_list` (which the Python
code mutates in place through the correction rules). -/
def get_dpoint_list (catalog : List DPRow) (dpoint_list : List String)
    (tools : List TOOL) (time_update depth_update : List (String × Option ℚ)) :
    Except PyErr (List DPOINT × List String) :=
  match applyCorrections dpoint_list tools with
  | .error e => .error e
  | .ok corrected =>
    let rows := select_dpoints_from_db_with_tools catalog corrected
      (tools.map (fun t => t.ltb_addr))
    .ok (applyUpdates (rows.map rowToDPOINT) time_update depth_update, corrected)

/-- The reordering loop of utility.get_ordered_dpoint_list: for each
requested name, `next(x for x in unique_dpoints if dpoint_string == x.name)`
picks the first query result with that name and raises StopIteration when
there is none (the subsequent `if temp:` is always true for a dataclass
instance). -/
def pickOrdered (uniq : List DPOINT) : List String → Except PyErr (List DPOINT)
  | [] => .ok []
  | s :: rest =>
    match uniq.find? (fun x => s == x.name) with
    | none => .error .stopIteration
    | some t =>
      match pickOrdered uniq rest with
      | .ok ds => .ok (t :: ds)
      | .error e => .error e

/-- utility.get_ordered_dpoint_list (utils/utility.py lines 144-189). -/
def get_ordered_dpoint_list (catalog : List DPRow) (dpoint_list : List String)
    (tools : List TOOL) : Except PyErr (List DPOINT) :=
  pickOrdered
    ((select_dpoints_from_db_with_tools catalog dpoint_list
        (tools.map (fun t => t.ltb_addr))).map rowToDPOINT)
    dpoint_list

/-- utility.get_size (utils/utility.py lines 256-277): the stepped
section-size classification table. -/
def get_size (section_size : ℚ) : String :=
  if section_size ≤ 7.5 then "4.75"
  else if 7.5 < section_size ∧ section_size ≤ 10 then "6.75"
  else if 10 < section_size ∧ section_size ≤ 15 then "8.25"
  else "9.0"

/-- Numeric reading of the labels returned by get_size, used to state that
the classification is monotone. -/
def size_label_val (l : String) : ℚ :=
  if l = "4.75" then 4.75
  else if l = "6.75" then 6.75
  else if l = "8.25" then 8.25
  else 9

/-- The status-store table XmlStorage (uid TEXT PRIMARY KEY, xml_content,
status), modelled as its list of rows; uid is unique in every state this
development builds. -/
abbrev Store := List (String × String × Nat)

/-- SQLHandler.load_xml_from_sqlite: the (xml_content, status) row for a UID,
or none. -/
def load_xml_from_sqlite (uid : String) (db : Store) : Option (String × Nat) :=
  (db.find? (fun r => r.1 == uid)).map (fun r => r.2)

/-- SQLHandler.insert_uid_with_none: INSERT OR IGNORE of (uid, "", 200). -/
def insert_uid_with_none (uid : String) (db : Store) : Store :=
  match db.find? (fun r => r.1 == uid) with
  | some _ => db
  | none => db ++ [(uid, "", 200)]

/-- SQLHandler.update_xml_in_sqlite: UPDATE of xml_content and status for an
existing UID (a no-op when the UID has no row). -/
def update_xml_in_sqlite (uid xml : String) (status : Nat) (db : Store) : Store :=
  db.map (fun r => if r.1 == uid then (uid, xml, status) else r)

/-- SQLHandler.remove_uid_from_db: DELETE the row of a UID. -/
def remove_uid_from_db (uid : String) (db : Store) : Store :=
  db.filter (fun r => !(r.1 == uid))

/-- The observable outcome of one POST /request_frames call: the HTTP status
and payload of the JSONResponse, whether the build path (utility.main, hence
catalog resolution and the packing-service call) was entered, and the final
state of the status store. -/
structure RFOut where
  statusCode : Nat
  xml : String
  message : String
  buildRan : Bool
  store : Store
deriving Repr, DecidableEq

/-- main.request_frames (main.py lines 24-92).  `sign` is the external
document signer (signature/digital_signature.py, out of scope here) applied
to every returned document; `build` is the outcome of `utility.main(data)`
for this request — a document/status pair, or the message of the exception
it raised.  The JSON-NoneType message rewrite of the except-branch is
translated verbatim. -/
def request_frames (sign : String → String) (uidOpt : Option String)
    (build : Except String (String × Nat)) (db : Store) : RFOut :=
  match uidOpt with
  | none => ⟨400, "", "UID is missing in the request.", false, db⟩
  | some uid =>
    if uid = "" then ⟨400, "", "UID is missing in the request.", false, db⟩
    else
      match load_xml_from_sqlite uid db with
      | some (doc, status) =>
        if doc = "" then
          ⟨503, "",
            "Frame Generator was not able to build frame. Increase bit rate or reduce required update rates.",
            false, db⟩
        else if startsWith doc "FAILED | " then
          ⟨406, "", (pySplit doc " | ").getD 1 "", false, remove_uid_from_db uid db⟩
        else
          ⟨status, sign doc, "Frames generated successfully!", false, db⟩
      | none =>
        let db1 := insert_uid_with_none uid db
        match build with
        | .ok (xml, status) =>
          if xml = "" then
            ⟨406, "",
              "Unable to build frames for your request. Please check compatibility!",
              true,
              update_xml_in_sqlite uid
                "FAILED | Unable to build frames for your request. Please check compatibility!"
                406 db1⟩
          else
            ⟨status, sign xml, "Frame generated successfully!", true,
              update_xml_in_sqlite uid xml status db1⟩
        | .error msg =>
          let msg := if containsSub msg
              "the JSON object must be str, bytes or bytearray, not NoneType" then
            "RTOF.json file didn't load correctly. Please check your input."
          else msg
          ⟨406, "", msg, true,
            update_xml_in_sqlite uid ("FAILED | " ++ msg) 406 db1⟩

/-- The MWD-tool validation at the head of utility.main (utils/utility.py
lines 660-663): `next((tool for tool in tools if tool.is_mwd), None)` guarded
by `if not mwd_tool: raise ValueError(...)`. -/
def main_mwd_check (tools : List TOOL) : Except String Unit :=
  match tools.find? (fun t => t.is_mwd) with
  | none => .error "MWD tool is missing in frame request!"
  | some _ => .ok ()

/-- utility.main as seen by request_frames, split at the MWD validation: the
check runs first and aborts the build; `rest` is the outcome of the remainder
of main for this request. -/
def build_of_main (tools : List TOOL) (rest : Except String (String × Nat)) :
    Except String (String × Nat) :=
  match main_mwd_check tools with
  | .error e => .error e
  | .ok _ => rest

/-- A sqlite3 exception: whether it is a sqlite3.OperationalError (every
OperationalError is also a sqlite3.Error), and its message. -/
structure SqliteError where
  isOperational : Bool
  msg : String
deriving Repr, DecidableEq

/-- The condition of SQLHandler.retry_on_lock: the exception is a
sqlite3.OperationalError and "locked" occurs in str(e).lower(). -/
def isLockedError (e : SqliteError) : Bool :=
  e.isOperational && containsSub (lowerStr e.msg) "locked"

/-- Trace of one call through the retry_on_lock wrapper: the final outcome,
how many times the wrapped function was invoked, and the sleep durations (in
seconds) performed between invocations. -/
structure RetryOutcome (α : Type) where
  result : Except SqliteError α
  calls : Nat
  sleeps : List ℚ
deriving Repr

/-- The loop body of SQLHandler.retry_on_lock (utils/db_managment.py lines
193-209): `for attempt in range(5)`, retrying after `time.sleep(0.5 *
(attempt + 1))` on a locked OperationalError while `attempt < retries - 1`,
re-raising otherwise.  `f k` is the behaviour of the wrapped function on its
k-th invocation; the fuel argument counts the remaining range iterations and
starts at 5, so the `0` case is unreachable. -/
def retryFrom {α : Type} (f : Nat → Except SqliteError α) (attempt : Nat) :
    Nat → RetryOutcome α
  | 0 => ⟨.error ⟨false, "unreachable"⟩, 0, []⟩
  | fuel + 1 =>
    match f attempt with
    | .ok a => ⟨.ok a, 1, []⟩
    | .error e =>
      if isLockedError e ∧ attempt < 4 then
        let rest := retryFrom f (attempt + 1) fuel
        ⟨rest.result, rest.calls + 1, (1 / 2 : ℚ) * ((attempt : ℚ) + 1) :: rest.sleeps⟩
      else ⟨.error e, 1, []⟩

/-- SQLHandler.retry_on_lock applied to a wrapped function. -/
def retry_on_lock {α : Type} (f : Nat → Except SqliteError α) : RetryOutcome α :=
  retryFrom f 0 5

/-- The body of SQLHandler.update_xml_in_sqlite (utils/db_managment.py lines
239-250) for one invocation: `exec` is the outcome of the UPDATE against the
store (the new store state, or the sqlite3 error it raised).  The body wraps
the UPDATE in `try: ... except sqlite3.Error as e: logging.error(...)`, so
every sqlite3 error — OperationalError included — is caught and logged inside
the method, which then returns None (`none` here) with the store unchanged;
the method itself never lets a sqlite3 error escape. -/
def update_xml_body (exec : Except SqliteError Store) :
    Except SqliteError (Option Store) :=
  match exec with
  | .ok db => .ok (some db)
  | .error _ => .ok none

/-- The decorated SQLHandler.update_xml_in_sqlite as a whole: retry_on_lock
wrapped around the swallowing body.  `exec k` is the outcome of the raw
UPDATE on the k-th attempt. -/
def update_xml_with_retry (exec : Nat → Except SqliteError Store) :
    RetryOutcome (Option Store) :=
  retry_on_lock (fun k => update_xml_body (exec k))

/-- The per-frameset status loop of utility.main (utils/utility.py lines
763-800): status starts at 200 and becomes 209 whenever a frameset present in
the frame-generator output reports a corrected ROP different from the
requested one.  The list pairs each frameset's corrected ROP (none when the
output has no entry for it) with its requested ROP, in fsl1..fsl6 order. -/
def reconcile_status (corrected_rops : List (Option ℚ))
    (requested_rops : List ℚ) : Nat :=
  (corrected_rops.zip requested_rops).foldl
    (fun status p =>
      match p.1 with
      | some v => if v ≠ p.2 then 209 else status
      | none => status)
    200

/-- The error-flattening dict comprehension of utility.main (line 759):
`{fsl: msg for fsl, sub_dict in errors.items() for msg in sub_dict.values()
if msg}` — per frameset, the last truthy message wins. -/
def flattenErrors (errors : List (String × List (String × String))) :
    List (String × String) :=
  errors.filterMap (fun fe =>
    ((fe.2.map (fun p => p.2)).filter (fun m => m ≠ "")).getLast?.map
      (fun m => (fe.1, m)))

/-- The models.FSL dataclass (models/models.py): one frameset slot. -/
structure FSL where
  description : String
  bitrate : ℚ
  rop : ℚ
  nonorion_update : ℚ
  orion_update : ℚ
  R1_block : Option Int
  R1_space : Option ℚ
  R2_block : Option Int
  R2_space : Option ℚ
  R3_block : Option Int
  R3_space : Option ℚ
  min_bounds_pct : Nat
  max_bounds_pct : Nat
  max_dpoints : Nat
  mtf : List DPOINT
  gtf : List DPOINT
  rotary : List DPOINT
deriving Repr, DecidableEq

/-- The models.UTILITY dataclass (models/models.py). -/
structure UTILITY where
  description : String
  bitrate : ℚ
  rop : ℚ
  utility : List DPOINT
deriving Repr, DecidableEq

/-- The models.FRAME_REQUEST dataclass (models/models.py).  The `tools` field
is populated with the resolved tool list (iteration order matters for the
unguarded `next(...)` calls of the serializer). -/
structure FRAME_REQUEST where
  uid : String
  job_number : String
  well_name : String
  section_size : String
  fsl1 : FSL
  fsl2 : FSL
  fsl3 : FSL
  fsl4 : FSL
  fsl5 : FSL
  fsl6 : FSL
  utility : UTILITY
  num_of_fsl : Nat
  odf_required : Bool
  modf_required : Bool
  provision_bha : Bool
  ddr_bha : Bool
  hspm_version : String
  tools : List TOOL
  odf_frame : List DPOINT
  modf_frame : List (List DPOINT)
  dds_frame : List DPOINT
deriving Repr, DecidableEq

/-- An xml.etree.ElementTree element: tag, attributes in insertion order,
optional text, children in insertion order. -/
inductive Xml where
  | elem (tag : String) (attrs : List (String × String)) (text : Option String)
      (children : List Xml)

/-- Python `str(v)` for an optional string (`str(None)` is "None"). -/
def pyStrOptStr (v : Option String) : String :=
  match v with
  | some s => s
  | none => "None"

/-- Python truthiness of an optional string field. -/
def truthyStr : Option String → Bool
  | some s => !(s == "")
  | none => false

/-- Python truthiness of an optional float field. -/
def truthyQ : Option ℚ → Bool
  | some q => decide (q ≠ 0)
  | none => false

/-- Python truthiness of an optional int field. -/
def truthyInt : Option Int → Bool
  | some n => decide (n ≠ 0)
  | none => false

/-- The attribute block export_to_fbw.convert_to_xml sets on a Tool element
once `tool.rt_blocksize` is truthy. -/
def blockSizeAttrs (b : Int) : List (String × String) :=
  [("RTBlockSize", toString b), ("RTBlockSize_A", toString b),
   ("RTBlockSize_B", toString b), ("RTBlockSize_C", toString b),
   ("DataComp", "false"), ("DataComp_A", "false"),
   ("DataComp_B", "false"), ("DataComp_C", "false"),
   ("CompDis", "0"), ("CompDis_A", "0"),
   ("CompDis_B", "0"), ("CompDis_C", "0")]

/-- One Tool element of the BottomHoleAssembly block (export_to_fbw.py lines
56-76). -/
def toolElement (showNum : ℚ → String) (t : TOOL) : Xml :=
  Xml.elem "Tool"
    ([("Name", t.tool_id)]
      ++ (if truthyStr t.version then [("Version", pyStrOptStr t.version)] else [])
      ++ (if truthyStr t.size then [("Size", pyStrOptStr t.size)] else [])
      ++ (if truthyQ t.tr_spacing then
            [("TRSpacing", showNum (t.tr_spacing.getD 0))] else [])
      ++ (if truthyInt t.rt_blocksize then blockSizeAttrs (t.rt_blocksize.getD 0)
          else []))
    none []

/-- A DataPoint element keyed by catalog id. -/
def dpointElement (d : DPOINT) : Xml :=
  Xml.elem "DataPoint" [("ID", toString d.datpid)] none []

/-- A mtf/gtf/rotary child block of a FrameSetList element: text " " when the
point list is empty, one DataPoint child per point otherwise. -/
def frameElement (tag : String) (dps : List DPOINT) : Xml :=
  if dps.isEmpty then Xml.elem tag [] (some " ") []
  else Xml.elem tag [] none (dps.map dpointElement)

/-- One FrameSetList element (export_to_fbw.py lines 91-134). -/
def fslElement (showNum : ℚ → String) (i : Nat) (fsl : FSL) : Xml :=
  Xml.elem "FrameSetList"
    [("Description", "FSL-" ++ toString (i + 1)),
     ("BitRate", showNum fsl.bitrate),
     ("ROP", showNum fsl.rop),
     ("Notes", fsl.description),
     ("CheckStatus",
       if ¬ fsl.mtf.isEmpty ∧ ¬ fsl.gtf.isEmpty ∧ ¬ fsl.rotary.isEmpty then
         "Checked"
       else "Empty")]
    none
    [frameElement "MagneticToolFaceFrame" fsl.mtf,
     frameElement "GravityToolFaceFrame" fsl.gtf,
     frameElement "RotatingFrame" fsl.rotary]

/-- The `{job_number}_{well_name}_{section_size}_{date}` f-string used for
the Run name and the Notes attributes. -/
def runNotes (fr : FRAME_REQUEST) (date : String) : String :=
  fr.job_number ++ "_" ++ fr.well_name ++ "_" ++ fr.section_size ++ "_" ++ date

/-- One MODF element inside the MODFSet block (export_to_fbw.py lines
208-230). -/
def modfElement (showNum : ℚ → String) (fr : FRAME_REQUEST) (date : String)
    (i : Nat) (modf_set : List DPOINT) : Xml :=
  Xml.elem "MODF"
    [("Name",
      (if "ECO" ∈ fr.tools.map (fun t => t.display_name) then "ECO APPO2 MODF"
       else "ARC6 APPO MODF") ++ toString (i + 1)),
     ("BitRate", showNum fr.fsl1.bitrate),
     ("ROP", showNum fr.fsl1.rop),
     ("Notes", runNotes fr date),
     ("CheckStatus", "Checked")]
    (if modf_set.isEmpty then some " " else none)
    (if modf_set.isEmpty then [] else modf_set.map dpointElement)

/-- hspm_version_mapper.QC_ELEMENT_MAPPER. -/
def QC_ELEMENT_MAPPER : List (String × String) :=
  [("RTDPointCatalog_2022_1.db", "TnAShared2022_1_001"),
   ("RTDPointCatalog_2023_0.db", "TnAShared2023_0_001"),
   ("RTDPointCatalog_2023_1.db", "TnAShared2023_1_001"),
   ("RTDPointCatalog_2025_0.db", "TnAShared2025_1_004"),
   ("RTDPointCatalog_2026_0.db", "TnAShared2026_0_010")]

/-- export_to_fbw.convert_to_xml (utils/export_to_fbw.py lines 9-252).
`date`, `fileDateTime`, `qcDateTime` and `hostname` stand for the values of
datetime.today().date().isoformat(), the two datetime.now().isoformat()
calls, and socket.gethostname(); `showNum` is Python str() on numbers.  The
two fallible points are the unguarded `next(...)` over the MWD tools at the
top and the unguarded `next(...)` over ARC6/ECO tools in the MODFSet
block. -/
def convert_to_xml (date fileDateTime qcDateTime hostname : String)
    (showNum : ℚ → String) (fr : FRAME_REQUEST) : Except PyErr Xml :=
  match fr.tools.find? (fun t => t.is_mwd) with
  | none => .error .stopIteration
  | some mwd_tool =>
    let run_attrs : List (String × String) :=
      [("Name", runNotes fr date),
       ("TelemetryTool", mwd_tool.tool_id),
       ("Version", pyStrOptStr mwd_tool.version),
       ("UnitSystem", "ENGLISH"),
       ("UserMode", "FIELD"),
       ("FileDate", fileDateTime),
       ("LastEditComputer", hostname),
       ("NumberOfFSLToBeDisplayed", "6"),
       ("FileFormatVersion", "3.0")]
    let bha := Xml.elem "BottomHoleAssembly" [] none
      (fr.tools.map (toolElement showNum))
    let fsl_list :=
      if mwd_tool.tool_id == "DVDXTTOOL" then [fr.fsl1, fr.fsl2, fr.fsl3]
      else if mwd_tool.tool_id == "SPTOOL" then [fr.fsl1]
      else [fr.fsl1, fr.fsl2, fr.fsl3, fr.fsl4, fr.fsl5, fr.fsl6]
    let fsl_elements := fsl_list.enum.map (fun p => fslElement showNum p.1 p.2)
    let dds_elements :=
      if fr.dds_frame.isEmpty then []
      else
        [Xml.elem "DDSFrame"
          [("Description", "DDS Frame"),
           ("BitRate", showNum fr.fsl1.bitrate),
           ("ROP", showNum fr.fsl1.rop),
           ("Notes", runNotes fr date),
           ("CheckStatus", "Checked")]
          none (fr.dds_frame.map dpointElement)]
    let utility_element := Xml.elem "UtilityFrame"
      [("Description", "Utility Frame"),
       ("BitRate", showNum fr.fsl1.bitrate),
       ("ROP", showNum fr.fsl1.rop),
       ("Notes", runNotes fr date),
       ("CheckStatus", "Checked")]
      (if fr.utility.utility.isEmpty then some " " else none)
      (if fr.utility.utility.isEmpty then [] else fr.utility.utility.map dpointElement)
    let tail_elements :=
      [Xml.elem "CustomRuleFile" [("Name", "CustomRuleFile")] none [],
       Xml.elem "QCElement"
         [("HSPMVersion",
           (dictGet QC_ELEMENT_MAPPER fr.hspm_version).getD "TnAShared2023_1_001"),
          ("FileDateTime", qcDateTime),
          ("LocationSpecificRules", ""),
          ("QCCheck", "NoErrorOrWarning")]
         none []]
    if mwd_tool.tool_id == "SPTOOL" then
      .ok (Xml.elem "Run" run_attrs none
        (bha :: fsl_elements ++ dds_elements ++ [utility_element] ++ tail_elements))
    else
      let odf_element := Xml.elem "OnDemandFrame"
        [("Description", "ODF"),
         ("BitRate", showNum fr.fsl1.bitrate),
         ("ROP", showNum fr.fsl1.rop),
         ("Notes", runNotes fr date),
         ("CheckStatus", if fr.odf_frame.isEmpty then "Empty" else "Checked")]
        (if fr.odf_frame.isEmpty then some " " else none)
        (if fr.odf_frame.isEmpty then [] else fr.odf_frame.map dpointElement)
      if fr.modf_frame.isEmpty then
        .ok (Xml.elem "Run" run_attrs none
          (bha :: fsl_elements ++ dds_elements ++ [utility_element] ++
            [odf_element] ++ tail_elements))
      else
        match fr.tools.find?
            (fun t => (["ARC6", "ECO"] : List String).contains t.display_name) with
        | none => .error .stopIteration
        | some lwd_tool =>
          let modfset := Xml.elem "MODFSet"
            [("SubName", "MODFSet 1"),
             ("LWDLTBID", toString lwd_tool.ltb_addr),
             ("LockLevel", "Unlocked")]
            none (fr.modf_frame.enum.map (fun p => modfElement showNum fr date p.1 p.2))
          .ok (Xml.elem "Run" run_attrs none
            (bha :: fsl_elements ++ dds_elements ++ [utility_element] ++
              [odf_element, modfset] ++ tail_elements))

/-- The error check and status computation of utility.main (utils/utility.py
lines 759-814): with no flattened errors the build continues and the overall
status is reconcile_status; otherwise main raises, with the message built as
in the source (the newline-joined branch fires whenever the flattened error
map is non-empty). -/
def main_reconcile (errors : List (String × List (String × String)))
    (corrected_rops : List (Option ℚ)) (requested_rops : List ℚ) :
    Except String Nat :=
  let errs := flattenErrors errors
  if errs.isEmpty then .ok (reconcile_status corrected_rops requested_rops)
  else
    let failed_to_build := errs.map (fun fm => upperStr fm.1 ++ ": " ++ fm.2)
    let tool_not_compatible :=
      (errs.filter (fun fm => containsSub fm.2 "Rules for ")).map (fun fm => fm.2)
    if ¬ failed_to_build.isEmpty then
      .error (String.intercalate "\n" failed_to_build)
    else if ¬ tool_not_compatible.isEmpty then
      .error ((pySplit (tool_not_compatible.headD "") " (no ").headD "" ++
        ". Tool is not compatible with Frame Generator.")
    else
      .error (String.intercalate " | "
        (errs.map (fun fm => upperStr fm.1 ++ " - " ++ fm.2)))

/-- Does this (corrected ROP, requested ROP) pair witness a packing-service
ROP change?  True when the frameset is present in the output and its
corrected ROP differs from the requested one. -/
def ropChanged (p : Option ℚ × ℚ) : Bool :=
  match p.1 with
  | some v => decide (v ≠ p.2)
  | none => false

/-- A resolved non-MWD (LWD) tool, as get_tools_list produces one: ARC6 at
bus address 20, version "7.1", size "8.25". -/
def lwdTool : TOOL := ⟨"ARCTOOL", "ARC6", 20, false, "_ar", some "7.1", some "8.25", none, none⟩

/-- A resolved MWD tool, as get_tools_list produces one from the IMP entry of
the catalog (compare test_main.py's mock_tools fixture). -/
def impTool : TOOL := ⟨"IMPTOOL", "IMP", 137, true, "", some "160", none, none, none⟩

/-- An FSL with the dataclass defaults of models.FSL. -/
def defaultFSL : FSL := ⟨"", 6, 100, 1, 6, none, none, none, none, none, none, 10, 50, 165, [], [], []⟩

/-- A frame request whose only tool is the IMP MWD tool, with one
multi-on-demand sequence and no ARC6/ECO tool. -/
def frNoArc : FRAME_REQUEST :=
  ⟨"u", "J", "W", "12.25in", defaultFSL, defaultFSL, defaultFSL, defaultFSL,
   defaultFSL, defaultFSL, ⟨"", 6, 100, []⟩, 1, false, true, false, false,
   "RTDPointCatalog_2025_0.db", [impTool], [], [[]], []⟩

/-- A one-row catalog: data point "A" with catalog id 1 on bus address 10. -/
def rowA : DPRow := ⟨"A", 1, 8, true, 10, "d"⟩

/-- A resolved MWD tool at bus address 10, owner of rowA. -/
def toolA : TOOL := ⟨"T", "TT", 10, true, "", some "1", none, none, none⟩

/-- The behaviour of a store whose every access raises
sqlite3.OperationalError("database is locked"). -/
def alwaysLocked : Nat → Except SqliteError Store :=
  fun _ => .error ⟨true, "database is locked"⟩

/-- Interval characterization of get_size: every section size falls into
exactly one of the four buckets of the table. -/
lemma get_size_cases (s : ℚ) :
    (s ≤ 7.5 ∧ get_size s = "4.75") ∨
    (7.5 < s ∧ s ≤ 10 ∧ get_size s = "6.75") ∨
    (10 < s ∧ s ≤ 15 ∧ get_size s = "8.25") ∨
    (15 < s ∧ get_size s = "9.0") := by
  by_cases h1 : s ≤ 7.5
  · exact Or.inl ⟨h1, by unfold get_size; rw [if_pos h1]⟩
  · have h1l : 7.5 < s := not_le.mp h1
    by_cases h2 : s ≤ 10
    · exact Or.inr (Or.inl ⟨h1l, h2, by
        unfold get_size; rw [if_neg h1, if_pos ⟨h1l, h2⟩]⟩)
    · have h2l : 10 < s := not_le.mp h2
      by_cases h3 : s ≤ 15
      · refine Or.inr (Or.inr (Or.inl ⟨h2l, h3, ?_⟩))
        unfold get_size
        rw [if_neg h1, if_neg (fun hc => h2 hc.2), if_pos ⟨h2l, h3⟩]
      · have h3l : 15 < s := not_le.mp h3
        refine Or.inr (Or.inr (Or.inr ⟨h3l, ?_⟩))
        unfold get_size
        rw [if_neg h1, if_neg (fun hc => h2 hc.2), if_neg (fun hc => h3 hc.2)]

/-- Value of the first classification label. -/
lemma size_label_val_475 : size_label_val "4.75" = 4.75 := rfl

/-- Value of the second classification label. -/
lemma size_label_val_675 : size_label_val "6.75" = 6.75 := rfl

/-- Value of the third classification label. -/
lemma size_label_val_825 : size_label_val "8.25" = 8.25 := rfl

/-- Value of the fourth classification label. -/
lemma size_label_val_9 : size_label_val "9.0" = 9 := rfl

/-- C8: get_size is monotone in the section size (reading its labels as
numbers) and matches the four-bucket table exactly at the boundaries:
s ≤ 7.5 gives "4.75", 7.5 < s ≤ 10 gives "6.75", 10 < s ≤ 15 gives "8.25",
and s > 15 gives "9.0". -/
theorem c8_get_size_monotone_buckets (s t : ℚ) :
    (s ≤ t → size_label_val (get_size s) ≤ size_label_val (get_size t)) ∧
    (s ≤ 7.5 → get_size s = "4.75") ∧
    (7.5 < s → s ≤ 10 → get_size s = "6.75") ∧
    (10 < s → s ≤ 15 → get_size s = "8.25") ∧
    (15 < s → get_size s = "9.0") := by
  refine ⟨?_, ?_, ?_, ?_, ?_⟩
  · intro hst
    rcases get_size_cases s with ⟨hs, es⟩ | ⟨hs1, hs2, es⟩ | ⟨hs1, hs2, es⟩ | ⟨hs1, es⟩ <;>
      rcases get_size_cases t with ⟨ht, et⟩ | ⟨ht1, ht2, et⟩ | ⟨ht1, ht2, et⟩ | ⟨ht1, et⟩ <;>
      rw [es, et] <;>
      simp only [size_label_val_475, size_label_val_675, size_label_val_825,
        size_label_val_9] <;>
      norm_num <;>
      linarith
  · intro h
    unfold get_size
    rw [if_pos h]
  · intro h1 h2
    unfold get_size
    rw [if_neg (not_le.mpr h1), if_pos ⟨h1, h2⟩]
  · intro h1 h2
    unfold get_size
    rw [if_neg (not_le.mpr (by linarith)), if_neg (fun hc => absurd hc.2 (not_le.mpr h1)),
      if_pos ⟨h1, h2⟩]
  · intro h1
    unfold get_size
    rw [if_neg (not_le.mpr (by linarith)), if_neg (fun hc => absurd hc.2 (not_le.mpr (by linarith))),
      if_neg (fun hc => absurd hc.2 (not_le.mpr h1))]

/-- Witness for C8 at concrete sizes. -/
theorem c8_witness :
    ((3 : ℚ) ≤ 12 ∧ size_label_val (get_size 3) ≤ size_label_val (get_size 12)) ∧
    get_size 3 = "4.75" ∧ get_size 8 = "6.75" ∧ get_size 12 = "8.25" ∧
    get_size 16 = "9.0" :=
  ⟨⟨by norm_num, (c8_get_size_monotone_buckets 3 12).1 (by norm_num)⟩,
   (c8_get_size_monotone_buckets 3 3).2.1 (by norm_num),
   (c8_get_size_monotone_buckets 8 8).2.2.1 (by norm_num) (by norm_num),
   (c8_get_size_monotone_buckets 12 12).2.2.2.1 (by norm_num) (by norm_num),
   (c8_get_size_monotone_buckets 16 16).2.2.2.2 (by norm_num)⟩

/-- C4: the code is at odds with the documented retry contract.  The
retry_on_lock wrapper, taken alone, does implement it: a store that raises a
locked OperationalError on every attempt is called 5 times, with sleeps of
0.5 s, 1.0 s, 1.5 s and 2.0 s between attempts, and the error then
propagates.  But the decorated mutating operation update_xml_in_sqlite wraps
its body in `except sqlite3.Error: logging.error(...)`, which catches every
sqlite3 error — OperationalError("database is locked") included — inside the
method, so the whole operation returns None after a single call, with no
retry, no sleep, and no propagated error. -/
theorem c4_locked_error_suppressed_before_retry :
    (retry_on_lock alwaysLocked).result = .error ⟨true, "database is locked"⟩ ∧
    (retry_on_lock alwaysLocked).calls = 5 ∧
    (retry_on_lock alwaysLocked).sleeps = [1/2, 1, 3/2, 2] ∧
    update_xml_with_retry alwaysLocked = ⟨.ok none, 1, []⟩ := by
  refine ⟨rfl, rfl, ?_, rfl⟩
  have h : isLockedError ⟨true, "database is locked"⟩ = true := rfl
  norm_num [retry_on_lock, alwaysLocked, retryFrom, h]

/-- Counterexample to C5 as stated: the correction step does not leave the
caller-supplied token list unmodified.  On input ["O_RBIT_gvr"] the Python
code pops "O_RBIT_gvr" from, and appends "RESBIT_gvr" to, the very list the
caller passed in, so after the call the caller's list holds ["RESBIT_gvr"],
not the original tokens. -/
theorem c5_counterexample :
    get_dpoint_list [] ["O_RBIT_gvr"] [] [] [] = .ok ([], ["RESBIT_gvr"]) ∧
    (["RESBIT_gvr"] : List String) ≠ ["O_RBIT_gvr"] :=
  ⟨rfl, by decide⟩

/-- C5 as amended: the corrected token list is a pure function of the token
list and the resolved tools alone — the same applyCorrections value for every
catalog and every time/depth override map — but the correction is applied in
place, so this corrected list (not the original) is what the caller's list
holds after get_dpoint_list returns. -/
theorem c5_corrected_tokens_pure_function (catalog : List DPRow)
    (tokens : List String) (tools : List TOOL)
    (tu du : List (String × Option ℚ)) :
    (get_dpoint_list catalog tokens tools tu du).map (fun p => p.2) =
      applyCorrections tokens tools := by
  unfold get_dpoint_list
  cases applyCorrections tokens tools with
  | error e => rfl
  | ok c => rfl

/-- Counterexample to C7 as stated: a stored PENDING row (empty document,
code 200) does not make a later request re-enter the build path; the handler
answers 503 from the stored row without running the build and leaves the row
as it was. -/
theorem c7_counterexample :
    (request_frames id (some "u") (.ok ("<doc/>", 200)) [("u", "", 200)]).buildRan = false ∧
    request_frames id (some "u") (.ok ("<doc/>", 200)) [("u", "", 200)] =
      ⟨503, "",
        "Frame Generator was not able to build frame. Increase bit rate or reduce required update rates.",
        false, [("u", "", 200)]⟩ :=
  ⟨rfl, rfl⟩

/-- C7 as amended: for every UID whose stored row holds an empty document,
a future request returns 503 with the fixed remediation message, does not
re-enter the build path, and leaves the store unchanged (the row stays
PENDING). -/
theorem c7_pending_row_returns_503 (sign : String → String)
    (build : Except String (String × Nat)) (uid : String) (db : Store)
    (st : Nat) (h1 : uid ≠ "")
    (h2 : load_xml_from_sqlite uid db = some ("", st)) :
    request_frames sign (some uid) build db =
      ⟨503, "",
        "Frame Generator was not able to build frame. Increase bit rate or reduce required update rates.",
        false, db⟩ := by
  simp [request_frames, h1, h2]

/-- Witness for C7 as amended, at a concrete PENDING store. -/
theorem c7_witness :
    request_frames id (some "w") (.error "boom") [("w", "", 200)] =
      ⟨503, "",
        "Frame Generator was not able to build frame. Increase bit rate or reduce required update rates.",
        false, [("w", "", 200)]⟩ :=
  c7_pending_row_returns_503 id (.error "boom") "w" [("w", "", 200)] 200 (by decide) rfl

/-- C1: for every UID whose stored row is a terminal success (non-empty
document that does not start with "FAILED | "), a second request returns the
stored document (through the external signer, exactly as the first response
did) with the stored status code, does not run the build path — hence
performs no catalog resolution and no packing-service call — and leaves the
store unchanged. -/
theorem c1_success_row_returned_unchanged (sign : String → String)
    (build : Except String (String × Nat)) (uid doc : String) (status : Nat)
    (db : Store) (h1 : uid ≠ "")
    (h2 : load_xml_from_sqlite uid db = some (doc, status))
    (h3 : doc ≠ "") (h4 : startsWith doc "FAILED | " = false) :
    request_frames sign (some uid) build db =
      ⟨status, sign doc, "Frames generated successfully!", false, db⟩ := by
  simp [request_frames, h1, h2, h3, h4]

/-- Witness for C1 at a concrete SUCCESS store. -/
theorem c1_witness :
    request_frames id (some "u") (.ok ("other", 200)) [("u", "<xml/>", 209)] =
      ⟨209, "<xml/>", "Frames generated successfully!", false, [("u", "<xml/>", 209)]⟩ :=
  c1_success_row_returned_unchanged id (.ok ("other", 200)) "u" "<xml/>" 209
    [("u", "<xml/>", 209)] (by decide) rfl (by decide) (by decide)

/-- The status fold either keeps its accumulator or produces 209, and it
produces 209 exactly when some pair witnesses a ROP change. -/
lemma reconcile_foldl (l : List (Option ℚ × ℚ)) (st : Nat) :
    l.foldl
      (fun status p =>
        match p.1 with
        | some v => if v ≠ p.2 then 209 else status
        | none => status) st =
    if l.any ropChanged then 209 else st := by
  induction l generalizing st with
  | nil => simp
  | cons hd tl ih =>
    rw [List.foldl_cons, ih, List.any_cons]
    rcases hd with ⟨o, r⟩
    cases o with
    | none =>
      cases htl : tl.any ropChanged <;> simp [ropChanged, htl]
    | some v =>
      by_cases hv : v = r
      · subst hv
        cases htl : tl.any ropChanged <;> simp [ropChanged, htl]
      · cases htl : tl.any ropChanged <;> simp [ropChanged, hv, htl]

/-- The overall status is 209 or 200, and 209 exactly when a present
corrected ROP differs from the requested one. -/
lemma reconcile_status_eq (outs : List (Option ℚ)) (reqs : List ℚ) :
    reconcile_status outs reqs =
      if (outs.zip reqs).any ropChanged then 209 else 200 :=
  reconcile_foldl (outs.zip reqs) 200

/-- Pair-level reading of ropChanged. -/
lemma ropChanged_iff (p : Option ℚ × ℚ) :
    ropChanged p = true ↔ ∃ v, p.1 = some v ∧ v ≠ p.2 := by
  rcases p with ⟨o, r⟩
  cases o <;> simp [ropChanged]

/-- C3: when the packing service reports no errors, the build's overall
status is 209 exactly when some frameset present in the packing output has a
corrected ROP different from the requested one, and 200 exactly when every
present corrected ROP equals the requested one.  The pairs list carries, in
fsl1..fsl6 order, each frameset's corrected ROP (none when the output lacks
that frameset) and its requested ROP. -/
theorem c3_status_209_iff_rop_changed
    (errors : List (String × List (String × String)))
    (outs : List (Option ℚ)) (reqs : List ℚ)
    (h : flattenErrors errors = []) :
    (main_reconcile errors outs reqs = .ok 209 ↔
      ∃ p ∈ outs.zip reqs, ∃ v, p.1 = some v ∧ v ≠ p.2) ∧
    (main_reconcile errors outs reqs = .ok 200 ↔
      ∀ p ∈ outs.zip reqs, ∀ v, p.1 = some v → v = p.2) := by
  have hm : main_reconcile errors outs reqs = .ok (reconcile_status outs reqs) := by
    unfold main_reconcile
    rw [h]
    rfl
  rw [hm, reconcile_status_eq]
  by_cases hb : (outs.zip reqs).any ropChanged
  · rw [if_pos hb]
    rcases List.any_eq_true.mp hb with ⟨p, hp, hc⟩
    constructor
    · simp only [Except.ok.injEq]
      constructor
      · intro _
        exact ⟨p, hp, (ropChanged_iff p).mp hc⟩
      · intro _
        trivial
    · simp only [Except.ok.injEq]
      constructor
      · intro hcontra
        omega
      · intro hall
        rcases (ropChanged_iff p).mp hc with ⟨v, hv, hne⟩
        exact absurd (hall p hp v hv) hne
  · rw [if_neg hb]
    have hall : ∀ p ∈ outs.zip reqs, ∀ v, p.1 = some v → v = p.2 := by
      intro p hp v hv
      by_contra hne
      exact hb (List.any_eq_true.mpr ⟨p, hp, (ropChanged_iff p).mpr ⟨v, hv, hne⟩⟩)
    constructor
    · simp only [Except.ok.injEq]
      constructor
      · intro hcontra
        omega
      · rintro ⟨p, hp, v, hv, hne⟩
        exact absurd (hall p hp v hv) hne
    · simp only [Except.ok.injEq]
      exact ⟨fun _ => hall, fun _ => trivial⟩

/-- Witness for C3: with no errors, a changed fsl1 ROP (81 against requested
80) yields 209, and matching ROPs yield 200. -/
theorem c3_witness :
    flattenErrors [] = [] ∧
    main_reconcile [] [some 81, none] [80, 50] = .ok 209 ∧
    main_reconcile [] [some 80, some 50] [80, 50] = .ok 200 :=
  ⟨rfl,
   (c3_status_209_iff_rop_changed [] [some 81, none] [80, 50] rfl).1.mpr
     ⟨(some 81, 80), by decide, 81, rfl, by norm_num⟩,
   (c3_status_209_iff_rop_changed [] [some 80, some 50] [80, 50] rfl).2.mpr
     (by decide)⟩

/-- After an insert-or-ignore of a fresh UID followed by an update of that
UID, loading the UID yields the updated document and status. -/
lemma load_after_insert_update (uid xml : String) (st : Nat) (db : Store)
    (h : load_xml_from_sqlite uid db = none) :
    load_xml_from_sqlite uid
      (update_xml_in_sqlite uid xml st (insert_uid_with_none uid db)) =
      some (xml, st) := by
  have hf : db.find? (fun r => r.1 == uid) = none := by
    unfold load_xml_from_sqlite at h
    exact Option.map_eq_none'.mp h
  have hall := List.find?_eq_none.mp hf
  unfold insert_uid_with_none
  rw [hf]
  unfold update_xml_in_sqlite load_xml_from_sqlite
  rw [List.map_append, List.find?_append]
  have h1 : ((db.map fun r => if r.1 == uid then (uid, xml, st) else r).find?
      (fun r => r.1 == uid)) = none := by
    rw [List.find?_eq_none]
    intro x hx
    rcases List.mem_map.mp hx with ⟨r, hr, hxr⟩
    have hne := hall r hr
    rw [if_neg (by simpa using hne)] at hxr
    subst hxr
    exact hne
  rw [h1]
  simp

/-- Counterexample to C2 as stated: a request whose resolved tools contain no
MWD tool is answered 406, but only after the handler has inserted a
PENDING row for the UID and finalized it to the terminal FAILED state — the
store does change, and the RequestRecord does reach a terminal state. -/
theorem c2_counterexample :
    (request_frames id (some "u") (build_of_main [lwdTool] (.ok ("doc", 200)))
        []).store ≠ [] ∧
    request_frames id (some "u") (build_of_main [lwdTool] (.ok ("doc", 200))) [] =
      ⟨406, "", "MWD tool is missing in frame request!", true,
        [("u", "FAILED | MWD tool is missing in frame request!", 406)]⟩ :=
  ⟨by decide, rfl⟩

/-- C2 as amended: for every fresh UID whose resolved tool list has no MWD
tool, the request is rejected as a client error (406 with the MWD-missing
message), but a PENDING RequestRecord is first inserted for the UID and then
finalized to the terminal FAILED state ("FAILED | MWD tool is missing in
frame request!", code 406). -/
theorem c2_no_mwd_rejection_writes_failed (sign : String → String)
    (uid : String) (db : Store) (rest : Except String (String × Nat))
    (tools : List TOOL) (h1 : uid ≠ "")
    (h2 : load_xml_from_sqlite uid db = none)
    (h3 : ∀ t ∈ tools, t.is_mwd = false) :
    request_frames sign (some uid) (build_of_main tools rest) db =
      ⟨406, "", "MWD tool is missing in frame request!", true,
        update_xml_in_sqlite uid "FAILED | MWD tool is missing in frame request!"
          406 (insert_uid_with_none uid db)⟩ ∧
    load_xml_from_sqlite uid
      (request_frames sign (some uid) (build_of_main tools rest) db).store =
      some ("FAILED | MWD tool is missing in frame request!", 406) := by
  have hb : build_of_main tools rest = .error "MWD tool is missing in frame request!" := by
    unfold build_of_main main_mwd_check
    rw [List.find?_eq_none.mpr (by intro t ht; simp [h3 t ht])]
  have hc : containsSub "MWD tool is missing in frame request!"
      "the JSON object must be str, bytes or bytearray, not NoneType" = false := by
    decide
  have he : request_frames sign (some uid) (build_of_main tools rest) db =
      ⟨406, "", "MWD tool is missing in frame request!", true,
        update_xml_in_sqlite uid "FAILED | MWD tool is missing in frame request!"
          406 (insert_uid_with_none uid db)⟩ := by
    simp [request_frames, h1, h2, hb, hc]
  refine ⟨he, ?_⟩
  rw [he]
  exact load_after_insert_update uid "FAILED | MWD tool is missing in frame request!"
    406 db h2

/-- Witness for C2 as amended, at a concrete fresh UID. -/
theorem c2_witness :
    request_frames id (some "v") (build_of_main [lwdTool] (.error "ignored")) [] =
      ⟨406, "", "MWD tool is missing in frame request!", true,
        update_xml_in_sqlite "v" "FAILED | MWD tool is missing in frame request!"
          406 (insert_uid_with_none "v" [])⟩ ∧
    load_xml_from_sqlite "v"
      (request_frames id (some "v") (build_of_main [lwdTool] (.error "ignored"))
        []).store =
      some ("FAILED | MWD tool is missing in frame request!", 406) :=
  c2_no_mwd_rejection_writes_failed id "v" [] (.error "ignored") [lwdTool]
    (by decide) rfl (by decide)

/-- The TF_b rule only exchanges "TF_b" for "TFHI_b": membership of any other
token is unchanged. -/
lemma mem_ruleTfb (tools : List TOOL) (l : List String) (s : String)
    (h1 : s ≠ "TF_b") (h2 : s ≠ "TFHI_b") : s ∈ ruleTfb tools l ↔ s ∈ l := by
  unfold ruleTfb
  split_ifs
  · simp [List.mem_append, List.mem_erase_of_ne h1, h2]
  · exact Iff.rfl

/-- The DDR r1 rule only removes "DDR_RT_1_r1". -/
lemma mem_ruleDdrR1 (l : List String) (s : String) (h : s ≠ "DDR_RT_1_r1") :
    s ∈ ruleDdrR1 l ↔ s ∈ l := by
  unfold ruleDdrR1
  split_ifs
  · exact List.mem_erase_of_ne h
  · exact Iff.rfl

/-- The DDR r2 rule only removes "DDR_RT_1_r2". -/
lemma mem_ruleDdrR2 (l : List String) (s : String) (h : s ≠ "DDR_RT_1_r2") :
    s ∈ ruleDdrR2 l ↔ s ∈ l := by
  unfold ruleDdrR2
  split_ifs
  · exact List.mem_erase_of_ne h
  · exact Iff.rfl

/-- The DDR r3 rule only removes "DDR_RT_1_r3". -/
lemma mem_ruleDdrR3 (l : List String) (s : String) (h : s ≠ "DDR_RT_1_r3") :
    s ∈ ruleDdrR3 l ↔ s ∈ l := by
  unfold ruleDdrR3
  split_ifs
  · exact List.mem_erase_of_ne h
  · exact Iff.rfl

/-- The PKPO rule only removes "C_PKPO4_s". -/
lemma mem_rulePkpo (l : List String) (s : String) (h : s ≠ "C_PKPO4_s") :
    s ∈ rulePkpo l ↔ s ∈ l := by
  unfold rulePkpo
  split_ifs
  · exact List.mem_erase_of_ne h
  · exact Iff.rfl

/-- The GRCNT rule only removes "O_grcnt_c". -/
lemma mem_ruleGrcnt (l : List String) (s : String) (h : s ≠ "O_grcnt_c") :
    s ∈ ruleGrcnt l ↔ s ∈ l := by
  unfold ruleGrcnt
  split_ifs
  · exact List.mem_erase_of_ne h
  · exact Iff.rfl

/-- The RHOB rule only removes "O_RHOB_v". -/
lemma mem_ruleRhob (l : List String) (s : String) (h : s ≠ "O_RHOB_v") :
    s ∈ ruleRhob l ↔ s ∈ l := by
  unfold ruleRhob
  split_ifs
  · exact List.mem_erase_of_ne h
  · exact Iff.rfl

/-- The DRHO rule only removes "O_DRHO_v". -/
lemma mem_ruleDrho (l : List String) (s : String) (h : s ≠ "O_DRHO_v") :
    s ∈ ruleDrho l ↔ s ∈ l := by
  unfold ruleDrho
  split_ifs
  · exact List.mem_erase_of_ne h
  · exact Iff.rfl

/-- The eight correction rules that precede the MP3-conditioned ones neither
remove nor introduce "CS3PK_H_mp" or "CSSTAT_mp". -/
lemma mem_corrections_prefix (tools : List TOOL) (l : List String) (s : String)
    (hs : s = "CS3PK_H_mp" ∨ s = "CSSTAT_mp") :
    s ∈ ruleDrho (ruleRhob (ruleGrcnt (rulePkpo
        (ruleDdrR3 (ruleDdrR2 (ruleDdrR1 (ruleTfb tools l))))))) ↔ s ∈ l := by
  rcases hs with rfl | rfl <;>
    rw [mem_ruleDrho _ _ (by decide), mem_ruleRhob _ _ (by decide),
      mem_ruleGrcnt _ _ (by decide), mem_rulePkpo _ _ (by decide),
      mem_ruleDdrR3 _ _ (by decide), mem_ruleDdrR2 _ _ (by decide),
      mem_ruleDdrR1 _ _ (by decide), mem_ruleTfb _ _ _ (by decide) (by decide)]

/-- C9: for every token list containing "CS3PK_H_mp" or "CSSTAT_mp" and every
resolved tool list with no tool displayed as "MP3", get_dpoint_list raises
StopIteration from the unguarded next() over the MP3 tools — and does so for
every catalog and every override map, i.e. before any catalog lookup, rather
than silently dropping or resolving the token. -/
theorem c9_missing_mp3_stopiteration (catalog : List DPRow)
    (tokens : List String) (tools : List TOOL)
    (tu du : List (String × Option ℚ))
    (hmem : "CS3PK_H_mp" ∈ tokens ∨ "CSSTAT_mp" ∈ tokens)
    (hmp3 : ∀ t ∈ tools, t.display_name ≠ "MP3") :
    get_dpoint_list catalog tokens tools tu du = .error .stopIteration := by
  have hfind : tools.find? (fun t => t.display_name == "MP3") = none := by
    rw [List.find?_eq_none]
    intro t ht
    simp [hmp3 t ht]
  have hac : applyCorrections tokens tools = .error .stopIteration := by
    unfold applyCorrections
    generalize hl8 : ruleDrho (ruleRhob (ruleGrcnt (rulePkpo
      (ruleDdrR3 (ruleDdrR2 (ruleDdrR1 (ruleTfb tools tokens))))))) = m
    by_cases hc : "CS3PK_H_mp" ∈ m
    · have h9 : ruleCs3pk tools m = .error .stopIteration := by
        unfold ruleCs3pk
        rw [if_pos hc, hfind]
      rw [h9]
    · have hcs : "CSSTAT_mp" ∈ m := by
        rcases hmem with hm | hm
        · exact absurd
            ((hl8 ▸ mem_corrections_prefix tools tokens "CS3PK_H_mp" (Or.inl rfl)).mpr hm)
            hc
        · exact (hl8 ▸ mem_corrections_prefix tools tokens "CSSTAT_mp" (Or.inr rfl)).mpr hm
      have h9 : ruleCs3pk tools m = .ok m := by
        unfold ruleCs3pk
        rw [if_neg hc]
      have h10 : ruleCsstat tools m = .error .stopIteration := by
        unfold ruleCsstat
        rw [if_pos hcs, hfind]
      simp only [h9, h10]
  unfold get_dpoint_list
  rw [hac]

/-- Witness for C9 at a concrete token list and MP3-free tool list. -/
theorem c9_witness :
    get_dpoint_list [rowA] ["CS3PK_H_mp"] [lwdTool] [] [] = .error .stopIteration :=
  c9_missing_mp3_stopiteration [rowA] ["CS3PK_H_mp"] [lwdTool] [] []
    (Or.inl (by decide)) (by decide)

/-- Membership in an insertion step. -/
lemma mem_insertByName (r x : DPRow) (l : List DPRow) :
    x ∈ insertByName r l ↔ x = r ∨ x ∈ l := by
  induction l with
  | nil => simp [insertByName]
  | cons hd tl ih =>
    unfold insertByName
    split_ifs
    · simp [List.mem_cons]
    · simp only [List.mem_cons, ih]
      tauto

/-- The name sort is a permutation at the level of membership. -/
lemma mem_sortByName (x : DPRow) (l : List DPRow) :
    x ∈ sortByName l ↔ x ∈ l := by
  induction l with
  | nil => exact Iff.rfl
  | cons hd tl ih =>
    unfold sortByName at ih ⊢
    rw [List.foldr_cons, mem_insertByName]
    simp only [List.mem_cons, ih]

/-- Membership characterization of the catalog query. -/
lemma mem_select (catalog : List DPRow) (names : List String)
    (addrs : List Int) (r : DPRow) :
    r ∈ select_dpoints_from_db_with_tools catalog names addrs ↔
      r ∈ catalog ∧ r.ltb_addr ∈ addrs ∧ r.dpoint_name ∈ names := by
  unfold select_dpoints_from_db_with_tools
  rw [mem_sortByName, List.mem_filter]
  simp [and_assoc]

/-- On success, the reordering loop returns records whose names are exactly
the requested names, in order. -/
lemma pickOrdered_ok_names (uniq : List DPOINT) (l : List String)
    (ds : List DPOINT) (h : pickOrdered uniq l = .ok ds) :
    ds.map (fun d => d.name) = l := by
  induction l generalizing ds with
  | nil =>
    unfold pickOrdered at h
    cases h
    rfl
  | cons s rest ih =>
    unfold pickOrdered at h
    cases hf : uniq.find? (fun x => s == x.name) with
    | none => rw [hf] at h; cases h
    | some t =>
      rw [hf] at h
      cases hr : pickOrdered uniq rest with
      | error e => rw [hr] at h; cases h
      | ok ds0 =>
        rw [hr] at h
        cases h
        have hn : s = t.name := by simpa using List.find?_some hf
        simp [ih ds0 hr, hn]

/-- The reordering loop fails exactly when some requested name has no query
result. -/
lemma pickOrdered_error_iff (uniq : List DPOINT) (l : List String) :
    pickOrdered uniq l = .error .stopIteration ↔
      ∃ s ∈ l, uniq.find? (fun x => s == x.name) = none := by
  induction l with
  | nil => simp [pickOrdered]
  | cons s rest ih =>
    unfold pickOrdered
    cases hf : uniq.find? (fun x => s == x.name) with
    | none =>
      constructor
      · intro _
        exact ⟨s, by simp, hf⟩
      · intro _
        rfl
    | some t =>
      cases hr : pickOrdered uniq rest with
      | ok ds =>
        constructor
        · intro h
          cases h
        · rintro ⟨s0, hs0, hnone⟩
          rcases List.mem_cons.mp hs0 with rfl | hmem
          · rw [hf] at hnone
            cases hnone
          · have := ih.mpr ⟨s0, hmem, hnone⟩
            rw [hr] at this
            cases this
      | error e =>
        cases e
        constructor
        · intro _
          rcases ih.mp hr with ⟨s0, hs0, hn⟩
          exact ⟨s0, by simp [hs0], hn⟩
        · intro _
          rfl

/-- C6: get_ordered_dpoint_list returns its records in exactly the
caller-supplied token order (the name sequence of the result is the token
list), and raises StopIteration exactly when some requested token has no
catalog record matching it under the given tool addresses. -/
theorem c6_ordered_resolution_spec (catalog : List DPRow)
    (tokens : List String) (tools : List TOOL) :
    (∀ ds, get_ordered_dpoint_list catalog tokens tools = .ok ds →
      ds.map (fun d => d.name) = tokens) ∧
    (get_ordered_dpoint_list catalog tokens tools = .error .stopIteration ↔
      ∃ s ∈ tokens, ∀ r ∈ catalog,
        ¬(r.dpoint_name = s ∧ r.ltb_addr ∈ tools.map (fun t => t.ltb_addr))) := by
  constructor
  · intro ds h
    exact pickOrdered_ok_names _ _ _ h
  · unfold get_ordered_dpoint_list
    rw [pickOrdered_error_iff]
    constructor
    · rintro ⟨s, hs, hnone⟩
      refine ⟨s, hs, ?_⟩
      rintro r hr ⟨hname, haddr⟩
      have hmem : rowToDPOINT r ∈ (select_dpoints_from_db_with_tools catalog
          tokens (tools.map (fun t => t.ltb_addr))).map rowToDPOINT := by
        exact List.mem_map_of_mem _ ((mem_select _ _ _ _).mpr ⟨hr, haddr, hname ▸ hs⟩)
      have := List.find?_eq_none.mp hnone _ hmem
      simp [rowToDPOINT, hname] at this
    · rintro ⟨s, hs, hnomatch⟩
      refine ⟨s, hs, ?_⟩
      rw [List.find?_eq_none]
      intro x hx
      rcases List.mem_map.mp hx with ⟨r, hr, hxr⟩
      rcases (mem_select _ _ _ _).mp hr with ⟨hcat, haddr, _⟩
      subst hxr
      simp only [rowToDPOINT, beq_iff_eq]
      intro hsname
      exact hnomatch r hcat ⟨hsname.symm, haddr⟩

/-- Witness for C6: a token present in the catalog resolves in order, a token
absent from it raises. -/
theorem c6_witness :
    ([rowToDPOINT rowA].map (fun d => d.name) = ["A"]) ∧
    get_ordered_dpoint_list [rowA] ["B"] [toolA] = .error .stopIteration :=
  ⟨(c6_ordered_resolution_spec [rowA] ["A"] [toolA]).1 [rowToDPOINT rowA] rfl,
   (c6_ordered_resolution_spec [rowA] ["B"] [toolA]).2.mpr
     ⟨"B", by decide, by decide⟩⟩

/-- C10: for every frame request with a non-empty multi-on-demand frame list,
whose first MWD tool is not the single-frameset SPTOOL, and whose tool list
has no tool displayed as "ARC6" or "ECO", convert_to_xml raises StopIteration
from the unguarded next() in the MODFSet block instead of producing a
document. -/
theorem c10_modf_no_arc6_eco_stopiteration
    (date fileDateTime qcDateTime hostname : String) (showNum : ℚ → String)
    (fr : FRAME_REQUEST) (mwd : TOOL)
    (h1 : fr.tools.find? (fun t => t.is_mwd) = some mwd)
    (h2 : mwd.tool_id ≠ "SPTOOL")
    (h3 : fr.modf_frame ≠ [])
    (h4 : ∀ t ∈ fr.tools, t.display_name ≠ "ARC6" ∧ t.display_name ≠ "ECO") :
    convert_to_xml date fileDateTime qcDateTime hostname showNum fr =
      .error .stopIteration := by
  have hfind : fr.tools.find?
      (fun t => (["ARC6", "ECO"] : List String).contains t.display_name) = none := by
    rw [List.find?_eq_none]
    intro t ht
    have hne := h4 t ht
    simp [hne.1, hne.2]
  have hsp : (mwd.tool_id == "SPTOOL") = false := by
    simpa using h2
  have hmodf : fr.modf_frame.isEmpty = false := by
    cases hm : fr.modf_frame with
    | nil => exact absurd hm h3
    | cons a b => rfl
  unfold convert_to_xml
  rw [h1]
  simp only [hsp, hmodf, hfind, Bool.false_eq_true, if_false]

/-- Witness for C10 at a concrete frame request: one IMP MWD tool, one
multi-on-demand sequence, no ARC6/ECO tool. -/
theorem c10_witness :
    convert_to_xml "d" "f" "q" "h" (fun _ => "") frNoArc = .error .stopIteration :=
  c10_modf_no_arc6_eco_stopiteration "d" "f" "q" "h" (fun _ => "") frNoArc impTool
    rfl (by decide) (by decide) (by decide)
